import Mathlib

/-!
Shallow embedding of the gentoo-functions C utilities:
  * src/ecma48-cpr.c  (cursor-position report acquisition)
  * src/consoletype.c (terminal-type classifier)
  * src/shquote.c     (shell-argument quoting)

Bytes are modelled as `Nat` (values 0..255); C strings are byte lists in
which a 0 byte acts as the terminator, exactly as in C.  Fallible system
calls are driven by an explicit environment record: each record field gives
the outcome the corresponding call would return on that run.
-/

namespace Ecma48

/-! ### sscanf "\033[%d;%dR" (src/ecma48-cpr.c line 144)

`%d` skips leading whitespace, accepts an optional sign and then requires at
least one decimal digit; a literal directive matches exactly one byte.  The
return value of sscanf counts successfully assigned conversions, so the
trailing literal `R` does not affect whether 2 is returned. -/

def isDigitB (b : Nat) : Bool := 48 ≤ b && b ≤ 57

def isSpaceB (b : Nat) : Bool := b == 32 || (9 ≤ b && b ≤ 13)

def digitsToNat (ds : List Nat) : Nat := ds.foldl (fun a d => a * 10 + (d - 48)) 0

/-- One `%d` conversion: skip whitespace, optional sign, then at least one
digit; returns the value and the unconsumed rest, or `none` on matching
failure (no digit) or input failure (end of string). -/
def scanDec (s : List Nat) : Option (Int × List Nat) :=
  let s1 := s.dropWhile isSpaceB
  let core : List Nat → Option (Nat × List Nat) := fun t =>
    let ds := t.takeWhile isDigitB
    if ds.isEmpty then none else some (digitsToNat ds, t.dropWhile isDigitB)
  match s1 with
  | 45 :: t => (core t).map (fun p => (-(p.1 : Int), p.2))
  | 43 :: t => (core t).map (fun p => ((p.1 : Int), p.2))
  | _ => (core s1).map (fun p => ((p.1 : Int), p.2))

/-- Result of `sscanf(p, "\033[%d;%dR", &row, &col)`: how many conversions
were assigned (0, 1, or 2) and, when 2, the two values. -/
inductive CprScan
  | fail0
  | fail1
  | two (r c : Int)
deriving DecidableEq, Repr

def sscanfCPR (s : List Nat) : CprScan :=
  match s with
  | 27 :: 91 :: t =>
    match scanDec t with
    | none => .fail0
    | some (r, t1) =>
      match t1 with
      | 59 :: t2 =>
        match scanDec t2 with
        | none => .fail1
        | some (c, _) => .two r c
      | _ => .fail1
  | _ => .fail0

/-! ### buffer scan (src/ecma48-cpr.c lines 141-150)

After NUL-terminating the buffer, `strchr(ibuf, '\033')` finds the first
escape byte before the first 0 byte; `sscanf` then parses from that byte up
to the first 0 byte. -/

inductive ScanRes
  | matched (r c : Int)
  | nomatch
deriving DecidableEq, Repr

def scanBuf (buf : List Nat) : ScanRes :=
  let vis := buf.takeWhile (fun b => b ≠ 0)
  match vis.findIdx? (fun b => b == 27) with
  | none => .nomatch
  | some i =>
    match sscanfCPR (vis.drop i) with
    | .two r c => .matched r c
    | _ => .nomatch

/-! ### the read loop (src/ecma48-cpr.c lines 132-151)

`char ibuf[BUFSIZE]` with `BUFSIZE = 100`; `imax = ibuf + 99`; each
iteration does `read(STDIN_FILENO, iptr, imax - iptr)`, which returns at
most the requested count, so the model truncates the environment-supplied
chunk to the free space.  `while (--maxloops > 0 && nr > 0)` starting from
`maxloops = MAX_LOOPS = 20`. -/

inductive ReadRes
  | more (bytes : List Nat)
  | fail
deriving DecidableEq, Repr

structure LoopOut where
  buf : List Nat
  matched : Bool
  row : Int
  col : Int
  readsDone : Nat
deriving DecidableEq, Repr

/-- The loop with current `maxloops` value `m`: `--maxloops > 0` fails
exactly when `m ≤ 1` (cases 0 and 1), otherwise one `read` is performed
(`k` counts the read calls) and the loop continues with `maxloops` one
smaller, so `m + 2` recurses at `m + 1`. -/
def runLoop : Nat → List ReadRes → List Nat → Nat → LoopOut
  | 0, _, buf, k => ⟨buf, false, -1, -1, k⟩
  | 1, _, buf, k => ⟨buf, false, -1, -1, k⟩
  | _ + 2, [], buf, k => ⟨buf, false, -1, -1, k + 1⟩
  | _ + 2, .fail :: _, buf, k => ⟨buf, false, -1, -1, k + 1⟩
  | m + 2, .more bytes :: rest, buf, k =>
    if (bytes.take (99 - buf.length)).length = 0 then ⟨buf, false, -1, -1, k + 1⟩
    else
      match scanBuf (buf ++ bytes.take (99 - buf.length)) with
      | .matched r c => ⟨buf ++ bytes.take (99 - buf.length), true, r, c, k + 1⟩
      | .nomatch => runLoop (m + 1) rest (buf ++ bytes.take (99 - buf.length)) (k + 1)

/-! ### struct termios and the raw-mode derivation (src/ecma48-cpr.c lines 74-91)

`tcflag_t` is a 32-bit unsigned integer; `c_cc` is an array of `NCCS = 32`
control characters.  Flag constants are the Linux asm-generic values:
`ICANON = 0x2`, `ECHO = 0x8`, `ECHOE = 0x10`, `ECHOK = 0x20`,
`ECHONL = 0x40`, `VTIME = 5`, `VMIN = 6`.  C's `x &= ~mask` on a 32-bit
unsigned operand is `x &&& (0xFFFFFFFF ^^^ mask)`. -/

def ICANON : Nat := 0x2
def ECHO : Nat := 0x8
def ECHOE : Nat := 0x10
def ECHOK : Nat := 0x20
def ECHONL : Nat := 0x40
def VTIME : Nat := 5
def VMIN : Nat := 6

structure Termios where
  c_iflag : Nat
  c_oflag : Nat
  c_cflag : Nat
  c_lflag : Nat
  c_cc : List Nat
deriving DecidableEq, Repr

/-- The attribute set written by `tcsetattr(STDIN_FILENO, TCSANOW, &new_tty)`:
`new_tty = save_tty` with echo flags and ICANON cleared and
`c_cc[VMIN] = 1`, `c_cc[VTIME] = 1`. -/
def rawMode (t : Termios) : Termios :=
  let l1 := t.c_lflag &&& (0xFFFFFFFF ^^^ (ECHO ||| ECHOE ||| ECHOK ||| ECHONL))
  let l2 := l1 &&& (0xFFFFFFFF ^^^ ICANON)
  { t with c_lflag := l2, c_cc := (t.c_cc.set VMIN 1).set VTIME 1 }

/-! ### the whole program (src/ecma48-cpr.c main, cleanup, die, on_signal)

The environment fixes the outcome of every fallible call on the run, the
bytes each `read` yields, and whether the SIGALRM handler has set
`is_timed_out` by the time line 165 inspects it. -/

structure Env where
  stdin_is_tty : Bool
  dup_ok : Bool
  fdopen_ok : Bool
  tcgetattr_ok : Bool
  init_term : Termios
  tcsetattr_raw_ok : Bool
  tcflush_ok : Bool
  cpr_write_ok : Bool
  fclose_ok : Bool
  timer_create_ok : Bool
  timer_settime_ok : Bool
  reads : List ReadRes
  timed_out : Bool
  stdout_write_ok : Bool
deriving Repr

/-- Ordered event trace of restorations and diagnostic lines. -/
inductive Ev
  | restoredEv
  | errLineEv (s : String)
deriving DecidableEq, Repr

structure PState where
  term : Termios
  save_tty : Termios
  is_tty_saved : Bool
  stdout : List String
  stderr : List String
  trace : List Ev
deriving Repr

inductive Outcome
  | ok (row col : Int)
  | died (msg : String)
  | printFailed
deriving DecidableEq, Repr

def exitCode : Outcome → Nat
  | .ok _ _ => 0
  | .died _ => 1
  | .printFailed => 1

/-- `cleanup` (lines 213-220): restores the saved settings at most once. -/
def cleanup (st : PState) : PState :=
  if st.is_tty_saved then
    { st with term := st.save_tty, is_tty_saved := false,
              trace := st.trace ++ [.restoredEv] }
  else st

/-- `die` (lines 222-227): cleanup, then one diagnostic line to stderr,
then `exit(EXIT_FAILURE)`. -/
def die (st : PState) (msg : String) : PState × Outcome :=
  let st1 := cleanup st
  let line := "ecma48-cpr: " ++ msg ++ "\n"
  ({ st1 with stderr := st1.stderr ++ [line],
              trace := st1.trace ++ [.errLineEv line] },
   .died msg)

structure RunOut where
  st : PState
  out : Outcome
  readsDone : Nat
  loopMatched : Bool
deriving Repr

def mkRun (p : PState × Outcome) (k : Nat) (m : Bool) : RunOut :=
  ⟨p.1, p.2, k, m⟩

/-- Lines 126-183 of `main`: the read loop, the timed-out check, the
restoration, and the final position check and print. -/
def runLoopPhase (e : Env) (st2 : PState) : RunOut :=
  if e.timed_out then
    mkRun (die st2 "timed out waiting for the terminal to respond to CPR")
      (runLoop 20 e.reads [] 0).readsDone (runLoop 20 e.reads [] 0).matched
  else if (runLoop 20 e.reads [] 0).col < 1 ∨ (runLoop 20 e.reads [] 0).row < 1 then
    mkRun (die (cleanup st2) "failed to read the cursor position")
      (runLoop 20 e.reads [] 0).readsDone (runLoop 20 e.reads [] 0).matched
  else if ¬ e.stdout_write_ok then
    ⟨cleanup st2, .printFailed,
     (runLoop 20 e.reads [] 0).readsDone, (runLoop 20 e.reads [] 0).matched⟩
  else
    ⟨{ cleanup st2 with
        stdout := (cleanup st2).stdout ++
          [toString (runLoop 20 e.reads [] 0).row ++ " " ++
           toString (runLoop 20 e.reads [] 0).col ++ "\n"] },
     .ok (runLoop 20 e.reads [] 0).row (runLoop 20 e.reads [] 0).col,
     (runLoop 20 e.reads [] 0).readsDone, (runLoop 20 e.reads [] 0).matched⟩

/-- Lines 98-124 of `main`: the flush, the CPR write, the stream close and
the timer setup, with `st2` the state after raw mode was applied. -/
def runAfterRaw (e : Env) (st2 : PState) : RunOut :=
  if ¬ e.tcflush_ok then
    mkRun (die st2 "failed to flush the terminal's input queue") 0 false
  else if ¬ e.cpr_write_ok then
    mkRun (die st2 "failed to write the CPR sequence to the terminal") 0 false
  else if ¬ e.fclose_ok then
    mkRun (die st2 "failed to flush the stream after writing the CPR sequence") 0 false
  else if ¬ e.timer_create_ok then
    mkRun (die st2 "failed to create a per-process timer") 0 false
  else if ¬ e.timer_settime_ok then
    mkRun (die st2 "failed to configure the per-process timer") 0 false
  else runLoopPhase e st2

/-- Lines 71-97 of `main`: derive and apply the raw-mode attribute set,
with `st1` the state right after the settings were saved. -/
def runAfterSave (e : Env) (st1 : PState) : RunOut :=
  if ¬ e.tcsetattr_raw_ok then
    mkRun (die st1 "failed to modify the terminal settings") 0 false
  else runAfterRaw e { st1 with term := rawMode st1.save_tty }

/-- The whole of `main` (lines 38-184), with `cleanup`/`die` inlined as the
functions above.  The timer is the non-Apple `timer_create`/`timer_settime`
path. -/
def run (e : Env) : RunOut :=
  if ¬ e.stdin_is_tty then
    mkRun (die ⟨e.init_term, ⟨0, 0, 0, 0, List.replicate 32 0⟩, false, [], [], []⟩
      "cannot determine the cursor position because stdin is not a tty") 0 false
  else if ¬ e.dup_ok then
    mkRun (die ⟨e.init_term, ⟨0, 0, 0, 0, List.replicate 32 0⟩, false, [], [], []⟩
      "failed to dup stdin") 0 false
  else if ¬ e.fdopen_ok then
    mkRun (die ⟨e.init_term, ⟨0, 0, 0, 0, List.replicate 32 0⟩, false, [], [], []⟩
      "failed to re-open the tty for writing") 0 false
  else if ¬ e.tcgetattr_ok then
    mkRun (die ⟨e.init_term, ⟨0, 0, 0, 0, List.replicate 32 0⟩, false, [], [], []⟩
      "failed to obtain the current terminal settings") 0 false
  else runAfterSave e ⟨e.init_term, e.init_term, true, [], [], []⟩

/-! ### helper views on runs -/

/-- An environment in which every system call up to the read loop
succeeds. -/
def okEnv (reads : List ReadRes) (timedOut : Bool) : Env :=
  ⟨true, true, true, true, ⟨0, 0, 0, 0, List.replicate 32 0⟩,
   true, true, true, true, true, true, reads, timedOut, true⟩

/-- `SETTINGS_SAVED` is reached: every call before `tcgetattr` and
`tcgetattr` itself succeed. -/
def savedReached (e : Env) : Bool :=
  e.stdin_is_tty && e.dup_ok && e.fdopen_ok && e.tcgetattr_ok

/-- The read loop is reached: every fallible call before it succeeds. -/
def reachesLoop (e : Env) : Bool :=
  e.stdin_is_tty && e.dup_ok && e.fdopen_ok && e.tcgetattr_ok &&
  e.tcsetattr_raw_ok && e.tcflush_ok && e.cpr_write_ok && e.fclose_ok &&
  e.timer_create_ok && e.timer_settime_ok

def countRestored : List Ev → Nat
  | [] => 0
  | .restoredEv :: t => 1 + countRestored t
  | .errLineEv _ :: t => countRestored t

/-- `true` when a diagnostic line is emitted before any restoration:
the first event that is either kind is a diagnostic. -/
def diagBeforeRestore : List Ev → Bool
  | [] => false
  | .restoredEv :: _ => false
  | .errLineEv _ :: _ => true

end Ecma48

namespace Consoletype

/-! ## src/consoletype.c

`enum termtype`: IS_VT = 0, IS_SERIAL = 1, IS_PTY = 2, IS_UNK = 3.
The environment fixes what `ttyname(0)` returns, the major number of the
device behind fd 0, and whether `ioctl(0, TIOCLINUX, ...)` succeeds (the
Linux build, where both `__linux__` and `TIOCLINUX` are defined). -/

def tty_names : List String := ["vt", "serial", "pty", "unknown"]

structure CEnv where
  ttyname : Option String
  devMajor : Nat
  ioctl_ok : Bool
  argv : List String
deriving Repr

/-- `check_ttyname` (lines 33-51): classify by the device name. -/
def check_ttyname (e : CEnv) : Nat :=
  match e.ttyname with
  | none => 3
  | some tty0 =>
    let tty := if tty0.startsWith "/dev/" then tty0.drop 5 else tty0
    if tty.startsWith "ttyS" || tty.startsWith "cuaa" then 1
    else if tty.startsWith "pts/" || tty.startsWith "ttyp" then 2
    else if tty.startsWith "tty" then 0
    else 3

/-- `check_devnode` (lines 53-72), Linux branch: classify by major number,
falling back to the TIOCLINUX probe. -/
def check_devnode (e : CEnv) : Nat :=
  if e.devMajor ≠ 3 ∧ (e.devMajor < 136 ∨ e.devMajor > 143) then
    if ¬ e.ioctl_ok then 1 else 0
  else 2

/-- `main` (lines 74-86): returns (stdout lines, exit status).  `puts`
appends a newline. -/
def ctypeMain (e : CEnv) : List String × Nat :=
  let ty0 := check_ttyname e
  let ty := if ty0 = 3 then check_devnode e else ty0
  let rc := if e.argv.get? 1 = some "stdout" then 0 else ty
  ([tty_names.getD ty "" ++ "\n"], rc)

end Consoletype

namespace Shquote

/-! ## src/shquote.c

Arguments are byte lists; a 0 byte terminates the C string, and C command
line arguments never contain an interior 0. -/

/-- `u8decode` (lines 143-167): byte length of the UTF-8 sequence starting
at the head, `none` for invalid UTF-8 (C returns -1), `some 0` at the
terminator.  `s[1]` past the end of the list reads the NUL terminator,
modelled by `headD 0`. -/
def contB (b : Nat) : Bool := b &&& 0xc0 == 0x80

def u8decode : List Nat → Option Nat
  | [] => some 0
  | b :: t =>
    if b = 0 then some 0
    else if b < 0x80 then some 1
    else if b < 0xc2 then none
    else if b < 0xe0 then
      match t with
      | b1 :: _ => if contB b1 then some 2 else none
      | [] => none
    else if b < 0xf0 then
      if b == 0xe0 && ((t.headD 0) &&& 0xe0) == 0x80 then none
      else if b == 0xed && ((t.headD 0) &&& 0xe0) == 0xa0 then none
      else
        match t with
        | b1 :: b2 :: _ => if contB b1 && contB b2 then some 3 else none
        | _ => none
    else if b < 0xf5 then
      if b == 0xf0 && ((t.headD 0) &&& 0xf0) == 0x80 then none
      else if b == 0xf4 && (t.headD 0) > 0x8f then none
      else
        match t with
        | b1 :: b2 :: b3 :: _ => if contB b1 && contB b2 && contB b3 then some 4 else none
        | _ => none
    else none

/-- Bytes of the set `"`+"`^#*[]=|\\?$\x7b\x7d()\"<>&;~ "` probed by the
second `strchr` of `print_shquoted` (line 77). -/
def specialBytes : List Nat :=
  [96, 94, 35, 42, 91, 93, 61, 124, 92, 63, 36, 123, 125, 40, 41, 34, 60, 62, 38, 59, 126, 32]

def isSpecialB (b : Nat) : Bool := specialBytes.contains b

/-- The classification loop of `print_shquoted` (lines 67-91): walks the
argument and decides `esc` (0 verbatim, 1 single quote, 2 dollar-single
quote).  `mode` is the global `esc_mode`.  Fuel bounds the walk; each step
consumes at least one byte, so `s.length` fuel is enough. -/
def escLoop (mode : Nat) : Nat → List Nat → Nat → Nat
  | _, [], esc => esc
  | 0, _, esc => esc
  | fuel + 1, b :: t, esc =>
    if b = 0 then esc
    else if b < 32 || b == 39 || b == 127 then mode
    else if isSpecialB b then
      if mode == 1 then 1 else escLoop mode fuel t 1
    else
      match u8decode (b :: t) with
      | none => mode
      | some l => escLoop mode fuel ((b :: t).drop l) esc

def escOf (mode : Nat) (s : List Nat) : Nat := escLoop mode s.length s 0

/-- Single-quote body (case 1, lines 100-106): each `'` becomes `'\''`. -/
def sqBody : List Nat → List Nat
  | [] => []
  | b :: t =>
    if b = 0 then []
    else if b = 39 then 39 :: 92 :: 39 :: 39 :: sqBody t
    else b :: sqBody t

/-- `"\\%03o"` of a byte value (always < 256, hence three octal digits). -/
def oct3 (b : Nat) : List Nat :=
  [92, 48 + b / 64, 48 + (b / 8) % 8, 48 + b % 8]

def dollarEscape (b : Nat) : Option Nat :=
  if b = 7 then some 97
  else if b = 8 then some 98
  else if b = 27 then some 101
  else if b = 12 then some 102
  else if b = 10 then some 110
  else if b = 13 then some 114
  else if b = 9 then some 116
  else if b = 11 then some 118
  else if b = 92 then some 92
  else if b = 39 then some 39
  else none

/-- Dollar-single-quote body (case 2, lines 110-132). -/
def dqBody : Nat → List Nat → List Nat
  | _, [] => []
  | 0, _ => []
  | fuel + 1, b :: t =>
    if b = 0 then []
    else
      match dollarEscape b with
      | some c => 92 :: c :: dqBody fuel t
      | none =>
        if b < 32 || b == 127 then oct3 b ++ dqBody fuel t
        else
          match u8decode (b :: t) with
          | none => oct3 b ++ dqBody fuel t
          | some l => (b :: t).take l ++ dqBody fuel ((b :: t).drop l)

/-- What `printf("%s", s)` emits: the bytes up to the terminator. -/
def cstr (s : List Nat) : List Nat := s.takeWhile (fun b => b ≠ 0)

/-- `print_shquoted` (lines 64-135): bytes written for one argument. -/
def print_shquoted (mode : Nat) (s : List Nat) : List Nat :=
  match escOf mode s with
  | 0 => cstr s
  | 1 => 39 :: (sqBody s ++ [39])
  | _ => 36 :: 39 :: (dqBody s.length s ++ [39])

/-- `esc_mode` after the `POSIXLY_CORRECT` check in `main` (lines 50-53). -/
def escModeOf (posixlyCorrect : Option String) : Nat :=
  match posixlyCorrect with
  | some v => if v.length ≠ 0 then 1 else 2
  | none => 2

/-- `main` (lines 47-62): space-separated quoted arguments, then a
newline. -/
def shquoteMain (posixlyCorrect : Option String) (args : List (List Nat)) : List Nat :=
  let mode := escModeOf posixlyCorrect
  (List.intercalate [32] (args.map (print_shquoted mode))) ++ [10]

end Shquote

/-! ## Lemmas -/

namespace Ecma48

lemma runLoop_reads_le (m : Nat) (rs : List ReadRes) (buf : List Nat) (k : Nat) :
    (runLoop m rs buf k).readsDone ≤ k + (m - 1) := by
  induction m, rs, buf, k using runLoop.induct <;>
    (rw [runLoop]; repeat' split) <;> simp_all <;> omega

lemma runLoop_not_matched (m : Nat) (rs : List ReadRes) (buf : List Nat) (k : Nat)
    (h : (runLoop m rs buf k).matched = false) :
    (runLoop m rs buf k).col = -1 ∧ (runLoop m rs buf k).row = -1 := by
  induction m, rs, buf, k using runLoop.induct <;>
    (rw [runLoop] at h ⊢; repeat' split at h) <;> simp_all

lemma runLoop_buf_le (m : Nat) (rs : List ReadRes) (buf : List Nat) (k : Nat)
    (h : buf.length ≤ 99) :
    (runLoop m rs buf k).buf.length ≤ 99 := by
  induction m, rs, buf, k using runLoop.induct <;>
    (rw [runLoop]; repeat' split) <;> simp_all <;> omega

lemma cleanup_idem (s : PState) : cleanup (cleanup s) = cleanup s := by
  by_cases hs : s.is_tty_saved <;> simp [cleanup, hs]

lemma loopPhase_restore (e : Env) (st : PState) (hs : st.is_tty_saved = true)
    (ht : st.trace = []) :
    (runLoopPhase e st).st.term = st.save_tty
    ∧ (runLoopPhase e st).st.is_tty_saved = false
    ∧ countRestored (runLoopPhase e st).st.trace = 1
    ∧ diagBeforeRestore (runLoopPhase e st).st.trace = false := by
  unfold runLoopPhase
  (repeat' split) <;>
    simp [die, cleanup, hs, ht, countRestored, diagBeforeRestore, mkRun]

lemma afterRaw_restore (e : Env) (st : PState) (hs : st.is_tty_saved = true)
    (ht : st.trace = []) :
    (runAfterRaw e st).st.term = st.save_tty
    ∧ (runAfterRaw e st).st.is_tty_saved = false
    ∧ countRestored (runAfterRaw e st).st.trace = 1
    ∧ diagBeforeRestore (runAfterRaw e st).st.trace = false := by
  unfold runAfterRaw
  (repeat' split) <;>
    first
      | exact loopPhase_restore e st hs ht
      | simp [die, cleanup, hs, ht, countRestored, diagBeforeRestore, mkRun]

lemma afterSave_restore (e : Env) (st : PState) (hs : st.is_tty_saved = true)
    (ht : st.trace = []) :
    (runAfterSave e st).st.term = st.save_tty
    ∧ (runAfterSave e st).st.is_tty_saved = false
    ∧ countRestored (runAfterSave e st).st.trace = 1
    ∧ diagBeforeRestore (runAfterSave e st).st.trace = false := by
  unfold runAfterSave
  split
  · simp [die, cleanup, hs, ht, countRestored, diagBeforeRestore, mkRun]
  · simpa using afterRaw_restore e { st with term := rawMode st.save_tty }
      (by simpa using hs) (by simpa using ht)

lemma run_eq_afterSave (e : Env) (h : savedReached e = true) :
    run e = runAfterSave e ⟨e.init_term, e.init_term, true, [], [], []⟩ := by
  simp only [savedReached, Bool.and_eq_true] at h
  obtain ⟨⟨⟨h1, h2⟩, h3⟩, h4⟩ := h
  unfold run
  simp [h1, h2, h3, h4]

lemma run_eq_loopPhase (e : Env) (h : reachesLoop e = true) :
    run e = runLoopPhase e ⟨rawMode e.init_term, e.init_term, true, [], [], []⟩ := by
  simp only [reachesLoop, Bool.and_eq_true] at h
  obtain ⟨⟨⟨⟨⟨⟨⟨⟨⟨h1, h2⟩, h3⟩, h4⟩, h5⟩, h6⟩, h7⟩, h8⟩, h9⟩, h10⟩ := h
  unfold run runAfterSave runAfterRaw
  simp [h1, h2, h3, h4, h5, h6, h7, h8, h9, h10]

/-- A successful outcome carries positive row and column: the stage view. -/
lemma loopPhase_ok_pos (e : Env) (st : PState) (r c : Int)
    (h : (runLoopPhase e st).out = Outcome.ok r c) : 1 ≤ r ∧ 1 ≤ c := by
  unfold runLoopPhase at h
  (repeat' split at h) <;> simp_all [die, mkRun] <;> omega

lemma afterRaw_ok_pos (e : Env) (st : PState) (r c : Int)
    (h : (runAfterRaw e st).out = Outcome.ok r c) : 1 ≤ r ∧ 1 ≤ c := by
  unfold runAfterRaw at h
  (repeat' split at h) <;>
    first
      | exact loopPhase_ok_pos e st r c h
      | simp_all [die, mkRun]

lemma run_ok_pos (e : Env) (r c : Int)
    (h : (run e).out = Outcome.ok r c) : 1 ≤ r ∧ 1 ≤ c := by
  unfold run runAfterSave at h
  (repeat' split at h) <;>
    first
      | exact afterRaw_ok_pos e _ r c h
      | simp_all [die, mkRun]

lemma cleanup_stdout (s : PState) : (cleanup s).stdout = s.stdout := by
  unfold cleanup; split <;> rfl

lemma cleanup_stderr (s : PState) : (cleanup s).stderr = s.stderr := by
  unfold cleanup; split <;> rfl

/-- Output discipline of a run result: a success prints exactly the
position line and exits 0, a `die` prints exactly one diagnostic line and
exits 1, and a failed stdout write exits 1 silently. -/
def OutputSpec (r : RunOut) : Prop :=
  (∀ rr cc : Int, r.out = Outcome.ok rr cc →
      r.st.stdout = [toString rr ++ " " ++ toString cc ++ "\n"]
      ∧ r.st.stderr = [] ∧ exitCode r.out = 0 ∧ 1 ≤ rr ∧ 1 ≤ cc)
  ∧ (∀ msg, r.out = Outcome.died msg →
      r.st.stderr = ["ecma48-cpr: " ++ msg ++ "\n"]
      ∧ r.st.stdout = [] ∧ exitCode r.out = 1)
  ∧ (r.out = Outcome.printFailed →
      exitCode r.out = 1 ∧ r.st.stderr = [] ∧ r.st.stdout = [])

lemma loopPhase_output (e : Env) (st : PState) (hout : st.stdout = [])
    (herr : st.stderr = []) : OutputSpec (runLoopPhase e st) := by
  unfold OutputSpec runLoopPhase
  (repeat' split) <;>
    refine ⟨fun rr cc hok => ?_, fun msg hdied => ?_, fun hpf => ?_⟩ <;>
    simp_all [die, mkRun, exitCode, cleanup_stdout, cleanup_stderr] <;>
    omega

lemma afterRaw_output (e : Env) (st : PState) (hout : st.stdout = [])
    (herr : st.stderr = []) : OutputSpec (runAfterRaw e st) := by
  unfold runAfterRaw
  (repeat' split) <;>
    first
      | exact loopPhase_output e st hout herr
      | (refine ⟨fun rr cc hok => ?_, fun msg hdied => ?_, fun hpf => ?_⟩ <;>
          simp_all [die, mkRun, exitCode, cleanup_stdout, cleanup_stderr])

lemma run_output (e : Env) : OutputSpec (run e) := by
  unfold run runAfterSave
  (repeat' split) <;>
    first
      | exact afterRaw_output e _ rfl rfl
      | (refine ⟨fun rr cc hok => ?_, fun msg hdied => ?_, fun hpf => ?_⟩ <;>
          simp_all [die, mkRun, exitCode, cleanup_stdout, cleanup_stderr])

/-- Read budget of a run result: at most 20 reads are performed, and a run
whose loop never matched does not exit 0. -/
def BudgetSpec (r : RunOut) : Prop :=
  r.readsDone ≤ 20 ∧ (r.loopMatched = false → exitCode r.out ≠ 0)

lemma loopPhase_budget (e : Env) (st : PState) : BudgetSpec (runLoopPhase e st) := by
  have hb := runLoop_reads_le 20 e.reads [] 0
  unfold BudgetSpec runLoopPhase
  (repeat' split) <;>
    refine ⟨?_, fun hm => ?_⟩ <;>
    simp_all [die, mkRun, exitCode] <;>
    first
      | omega
      | (have hc := runLoop_not_matched 20 e.reads [] 0 hm; omega)

lemma afterRaw_budget (e : Env) (st : PState) : BudgetSpec (runAfterRaw e st) := by
  unfold runAfterRaw
  (repeat' split) <;>
    first
      | exact loopPhase_budget e st
      | (refine ⟨?_, fun hm => ?_⟩ <;> simp_all [die, mkRun, exitCode])

lemma run_budget (e : Env) : BudgetSpec (run e) := by
  unfold run runAfterSave
  (repeat' split) <;>
    first
      | exact afterRaw_budget e _
      | (refine ⟨?_, fun hm => ?_⟩ <;> simp_all [die, mkRun, exitCode])

/-- The buffer of spec.md's scan-resilience test: a foreign escape sequence
`ESC [ ? 1 ; 2 c` followed by the valid CPR reply `ESC [ 5 ; 9 R`. -/
def c3buf : List Nat := [27, 91, 63, 49, 59, 50, 99, 27, 91, 53, 59, 57, 82]

/-- Any buffer whose first escape byte heads a foreign sequence beginning
`ESC [ ?` never scans to a match: `strchr` always returns that first
escape, and `sscanf` fails there on the `?`. -/
lemma scanBuf_foreign (rest : List Nat) :
    scanBuf (27 :: 91 :: 63 :: rest) = ScanRes.nomatch := by
  simp [scanBuf, sscanfCPR, scanDec, isSpaceB, isDigitB, List.takeWhile, List.findIdx?]

lemma runLoop_foreign : ∀ (m : Nat) (rs : List ReadRes) (rest : List Nat) (k : Nat),
    (runLoop m rs (27 :: 91 :: 63 :: rest) k).matched = false := by
  intro m
  induction m using Nat.strong_induction_on with
  | _ m ih =>
    intro rs rest k
    match m, rs with
    | 0, rs => simp [runLoop]
    | 1, rs => simp [runLoop]
    | m + 2, [] => simp [runLoop]
    | m + 2, .fail :: r => simp [runLoop]
    | m + 2, .more bytes :: r =>
      rw [runLoop]
      split
      · rfl
      · rw [List.cons_append, List.cons_append, List.cons_append, scanBuf_foreign]
        exact ih (m + 1) (by omega) r _ (k + 1)

lemma runLoop_step_more (m : Nat) (bytes : List Nat) (rest : List ReadRes)
    (buf : List Nat) (k : Nat)
    (hne : ¬ (bytes.take (99 - buf.length)).length = 0)
    (hscan : scanBuf (buf ++ bytes.take (99 - buf.length)) = ScanRes.nomatch) :
    runLoop (m + 2) (.more bytes :: rest) buf k
      = runLoop (m + 1) rest (buf ++ bytes.take (99 - buf.length)) (k + 1) := by
  rw [runLoop, if_neg hne, hscan]

lemma rawMode_lflag (t : Termios) :
    (rawMode t).c_lflag = t.c_lflag &&& 4294967175 &&& 4294967293 := by
  have e1 : ((4294967295 : Nat) ^^^ (8 ||| 16 ||| 32 ||| 64)) = 4294967175 := by decide
  have e2 : ((4294967295 : Nat) ^^^ 2) = 4294967293 := by decide
  simp only [rawMode, ECHO, ECHOE, ECHOK, ECHONL, ICANON]
  rw [e1, e2]

lemma rawMode_testBit (t : Termios) (i : Nat) :
    (rawMode t).c_lflag.testBit i
      = (t.c_lflag.testBit i && Nat.testBit 4294967175 i && Nat.testBit 4294967293 i) := by
  rw [rawMode_lflag, Nat.testBit_land, Nat.testBit_land]

lemma rawMode_cc (t : Termios) : (rawMode t).c_cc = (t.c_cc.set 6 1).set 5 1 := by
  simp [rawMode, VMIN, VTIME]

end Ecma48

namespace Consoletype

lemma check_ttyname_lt (e : CEnv) : check_ttyname e < 4 := by
  unfold check_ttyname
  dsimp only
  (repeat' split) <;> omega

lemma check_devnode_lt (e : CEnv) : check_devnode e < 4 := by
  unfold check_devnode
  (repeat' split) <;> omega

end Consoletype

namespace Shquote

lemma escLoop_le_one (fuel : Nat) (s : List Nat) (esc : Nat) (h : esc ≤ 1) :
    escLoop 1 fuel s esc ≤ 1 := by
  induction fuel generalizing s esc with
  | zero => cases s <;> simp [escLoop, h]
  | succ n ih =>
    cases s with
    | nil => simp [escLoop, h]
    | cons b t =>
      rw [escLoop]
      (repeat' split) <;> first | omega | exact ih _ _ h | exact ih _ _ (by omega)

lemma sqBody_eq (s : List Nat) :
    sqBody s = ((cstr s).map (fun b => if b = 39 then [39, 92, 39, 39] else [b])).flatten := by
  induction s with
  | nil => simp [sqBody, cstr]
  | cons b t ih =>
    by_cases hb : b = 0
    · simp [sqBody, cstr, hb]
    · by_cases hq : b = 39 <;> simp [sqBody, cstr, hb, hq] <;>
        simpa [cstr] using ih

end Shquote

/-! ## Claim theorems -/

namespace Ecma48

/-- C1: on every run of ecma48-cpr in which the terminal settings were
saved (`SETTINGS_SAVED` reached), the original attribute set is restored
before the process exits, on the success path and on every failure path
including timeout; the restoration happens exactly once (`cleanup` is
idempotent, so a second invocation is a no-op), and on failure paths the
restoration precedes the diagnostic line. -/
theorem c1_terminal_restoration (e : Env) (h : savedReached e = true) :
    (run e).st.term = e.init_term
    ∧ (run e).st.is_tty_saved = false
    ∧ countRestored (run e).st.trace = 1
    ∧ diagBeforeRestore (run e).st.trace = false
    ∧ (∀ s : PState, cleanup (cleanup s) = cleanup s) := by
  rw [run_eq_afterSave e h]
  have hp := afterSave_restore e ⟨e.init_term, e.init_term, true, [], [], []⟩ rfl rfl
  exact ⟨hp.1, hp.2.1, hp.2.2.1, hp.2.2.2, fun s => cleanup_idem s⟩

/-- Witness for C1 at a concrete environment: stdin is a tty, dup, fdopen
and tcgetattr succeed, and the first read fails. -/
theorem c1_terminal_restoration_witness :
    savedReached (okEnv [ReadRes.fail] false) = true
    ∧ (run (okEnv [ReadRes.fail] false)).st.term = (okEnv [ReadRes.fail] false).init_term
    ∧ countRestored (run (okEnv [ReadRes.fail] false)).st.trace = 1 :=
  ⟨by decide, (c1_terminal_restoration (okEnv [ReadRes.fail] false) (by decide)).1,
   (c1_terminal_restoration (okEnv [ReadRes.fail] false) (by decide)).2.2.1⟩

/-- C2: if the timed-out flag set by the SIGALRM handler is observed set at
the check after the read loop, the run reports the timeout failure and
exits nonzero, even when the loop already matched a fully valid CPR reply:
the flag is checked before any success path. -/
theorem c2_timeout_precedence (e : Env) (hr : reachesLoop e = true)
    (ht : e.timed_out = true) :
    (run e).out = Outcome.died "timed out waiting for the terminal to respond to CPR"
    ∧ exitCode (run e).out ≠ 0 := by
  rw [run_eq_loopPhase e hr]
  unfold runLoopPhase
  simp [ht, die, cleanup, mkRun, exitCode]

/-- Witness for C2: in an environment whose single read already contains
the fully valid reply `ESC [ 5 ; 9 R` (so the loop matched) but whose
cancellation flag is set, the run still reports the timeout. -/
theorem c2_timeout_precedence_witness :
    (run (okEnv [ReadRes.more [27, 91, 53, 59, 57, 82]] true)).out
      = Outcome.died "timed out waiting for the terminal to respond to CPR"
    ∧ (run (okEnv [ReadRes.more [27, 91, 53, 59, 57, 82]] true)).loopMatched = true :=
  ⟨(c2_timeout_precedence (okEnv [ReadRes.more [27, 91, 53, 59, 57, 82]] true)
      (by decide) (by decide)).1,
   by decide⟩

/-- C3: contrary to the claim, a buffer holding a foreign escape sequence
followed by the valid reply `ESC [ 5 ; 9 R` never yields (5, 9): the valid
reply alone parses to (5, 9), but the scan only ever attempts the match at
the buffer's first escape byte (`strchr`), so after such a read the loop
never matches — whatever further reads arrive — and the run fails instead
of printing the position. -/
theorem c3_first_escape_only :
    sscanfCPR [27, 91, 53, 59, 57, 82] = CprScan.two 5 9
    ∧ scanBuf c3buf = ScanRes.nomatch
    ∧ ∀ extra : List ReadRes,
        (run (okEnv (ReadRes.more c3buf :: extra) false)).out
          = Outcome.died "failed to read the cursor position"
        ∧ (run (okEnv (ReadRes.more c3buf :: extra) false)).loopMatched = false := by
  refine ⟨by decide, by decide, fun extra => ?_⟩
  have hstep := runLoop_step_more 18 c3buf extra [] 0 (by decide) (by decide)
  have h2 : (([] : List Nat) ++ c3buf.take (99 - ([] : List Nat).length))
      = 27 :: 91 :: 63 :: [49, 59, 50, 99, 27, 91, 53, 59, 57, 82] := by decide
  rw [h2] at hstep
  norm_num at hstep
  have hm : (runLoop 20 (ReadRes.more c3buf :: extra) [] 0).matched = false := by
    rw [hstep]
    exact runLoop_foreign 19 extra _ 1
  have hcols := runLoop_not_matched 20 (ReadRes.more c3buf :: extra) [] 0 hm
  rw [run_eq_loopPhase (okEnv (ReadRes.more c3buf :: extra) false) rfl]
  unfold runLoopPhase
  simp [okEnv, die, mkRun, cleanup_stderr, hcols.1, hm]

/-- C4: the parser maps `ESC [ 24 ; 80 R` to (24, 80) and the run prints
it; `ESC [ 0 ; 5 R` scans as (0, 5) but a zero field is rejected and the
run reports the position as unavailable; `ESC [ 12 ; R` misses its second
field, assigns only one conversion and is likewise rejected; and every
successful outcome carries both fields at least 1. -/
theorem c4_parse_cases :
    sscanfCPR [27, 91, 50, 52, 59, 56, 48, 82] = CprScan.two 24 80
    ∧ (run (okEnv [ReadRes.more [27, 91, 50, 52, 59, 56, 48, 82]] false)).out
        = Outcome.ok 24 80
    ∧ (run (okEnv [ReadRes.more [27, 91, 50, 52, 59, 56, 48, 82]] false)).st.stdout
        = ["24 80\n"]
    ∧ sscanfCPR [27, 91, 48, 59, 53, 82] = CprScan.two 0 5
    ∧ (run (okEnv [ReadRes.more [27, 91, 48, 59, 53, 82], ReadRes.fail] false)).out
        = Outcome.died "failed to read the cursor position"
    ∧ sscanfCPR [27, 91, 49, 50, 59, 82] = CprScan.fail1
    ∧ (run (okEnv [ReadRes.more [27, 91, 49, 50, 59, 82], ReadRes.fail] false)).out
        = Outcome.died "failed to read the cursor position"
    ∧ (∀ (e : Env) (r c : Int), (run e).out = Outcome.ok r c → 1 ≤ r ∧ 1 ≤ c) :=
  ⟨by decide, by decide, by decide, by decide, by decide, by decide, by decide,
   fun e r c h => run_ok_pos e r c h⟩

/-- C5: every run performs at most 20 reads (the loop in fact performs at
most `MAX_LOOPS - 1 = 19`, each a single blocking read into the free region
of the buffer), and a run whose loop never matched a CPR reply terminates
with a nonzero failure exit instead of hanging. -/
theorem c5_read_budget (e : Env) :
    (run e).readsDone ≤ 20
    ∧ ((run e).loopMatched = false → exitCode (run e).out ≠ 0) :=
  run_budget e

/-- C6: starting from an empty buffer, the write cursor (the number of
bytes stored) never exceeds 99 = BUFSIZE - 1, so the NUL terminator at the
cursor stays within the 100-byte buffer; more generally any reachable
cursor at most 99 stays at most 99. -/
theorem c6_buffer_bound (m k : Nat) (rs : List ReadRes) :
    (runLoop m rs [] k).buf.length ≤ 99
    ∧ (runLoop m rs [] k).buf.length < 100
    ∧ (∀ buf : List Nat, buf.length ≤ 99 → (runLoop m rs buf k).buf.length ≤ 99) := by
  refine ⟨runLoop_buf_le m rs [] k (by simp), ?_,
    fun buf h => runLoop_buf_le m rs buf k h⟩
  have := runLoop_buf_le m rs [] k (by simp)
  omega

/-- C7: the raw-mode attribute set is the saved snapshot with exactly the
echo flags ECHO (bit 3), ECHOE (bit 4), ECHOK (bit 5), ECHONL (bit 6) and
ICANON (bit 1) cleared in `c_lflag`, `c_cc[VMIN] = 1` and `c_cc[VTIME] = 1`
(1 decisecond); every other bit of the 32-bit `c_lflag`, every other
`c_cc` entry, and the other flag fields are unchanged. -/
theorem c7_raw_mode_derivation (t : Termios) (hcc : t.c_cc.length = 32) :
    (rawMode t).c_lflag.testBit 1 = false
    ∧ (rawMode t).c_lflag.testBit 3 = false
    ∧ (rawMode t).c_lflag.testBit 4 = false
    ∧ (rawMode t).c_lflag.testBit 5 = false
    ∧ (rawMode t).c_lflag.testBit 6 = false
    ∧ (∀ i : Nat, i < 32 → i ≠ 1 → i ≠ 3 → i ≠ 4 → i ≠ 5 → i ≠ 6 →
        (rawMode t).c_lflag.testBit i = t.c_lflag.testBit i)
    ∧ (rawMode t).c_iflag = t.c_iflag
    ∧ (rawMode t).c_oflag = t.c_oflag
    ∧ (rawMode t).c_cflag = t.c_cflag
    ∧ (rawMode t).c_cc.get? VMIN = some 1
    ∧ (rawMode t).c_cc.get? VTIME = some 1
    ∧ (∀ i : Nat, i ≠ 5 → i ≠ 6 → (rawMode t).c_cc.get? i = t.c_cc.get? i)
    ∧ (rawMode t).c_cc.length = t.c_cc.length := by
  have hA : ∀ i : Nat, i < 32 → i ≠ 3 → i ≠ 4 → i ≠ 5 → i ≠ 6 →
      Nat.testBit 4294967175 i = true := by decide
  have hB : ∀ i : Nat, i < 32 → i ≠ 1 → Nat.testBit 4294967293 i = true := by decide
  have hB1 : Nat.testBit 4294967293 1 = false := by decide
  have hA3 : Nat.testBit 4294967175 3 = false := by decide
  have hA4 : Nat.testBit 4294967175 4 = false := by decide
  have hA5 : Nat.testBit 4294967175 5 = false := by decide
  have hA6 : Nat.testBit 4294967175 6 = false := by decide
  refine ⟨?_, ?_, ?_, ?_, ?_, ?_, ?_, ?_, ?_, ?_, ?_, ?_, ?_⟩
  · rw [rawMode_testBit]; simp [hB1]
  · rw [rawMode_testBit]; simp [hA3]
  · rw [rawMode_testBit]; simp [hA4]
  · rw [rawMode_testBit]; simp [hA5]
  · rw [rawMode_testBit]; simp [hA6]
  · intro i hi h1 h3 h4 h5 h6
    rw [rawMode_testBit, hA i hi h3 h4 h5 h6, hB i hi h1]
    simp
  · simp [rawMode]
  · simp [rawMode]
  · simp [rawMode]
  · rw [rawMode_cc, VMIN, List.get?_set_ne _ _ (by omega : (5 : Nat) ≠ 6),
      List.get?_set_eq_of_lt _ (by omega)]
  · rw [rawMode_cc, VTIME, List.get?_set_eq_of_lt _ (by simp [hcc])]
  · intro i h5 h6
    rw [rawMode_cc, List.get?_set_ne _ _ (Ne.symm h5), List.get?_set_ne _ _ (Ne.symm h6)]
  · rw [rawMode_cc]; simp

/-- Witness for C7 at a concrete snapshot with all `c_lflag` bits set and
all control characters 7. -/
theorem c7_raw_mode_derivation_witness :
    (rawMode ⟨1, 2, 3, 4294967295, List.replicate 32 7⟩).c_lflag.testBit 3 = false
    ∧ (rawMode ⟨1, 2, 3, 4294967295, List.replicate 32 7⟩).c_lflag.testBit 0
        = (Termios.mk 1 2 3 4294967295 (List.replicate 32 7)).c_lflag.testBit 0
    ∧ (rawMode ⟨1, 2, 3, 4294967295, List.replicate 32 7⟩).c_cc.get? 6 = some 1 :=
  ⟨(c7_raw_mode_derivation ⟨1, 2, 3, 4294967295, List.replicate 32 7⟩ (by decide)).2.1,
   (c7_raw_mode_derivation ⟨1, 2, 3, 4294967295, List.replicate 32 7⟩ (by decide)).2.2.2.2.2.1
     0 (by decide) (by decide) (by decide) (by decide) (by decide) (by decide),
   (c7_raw_mode_derivation ⟨1, 2, 3, 4294967295, List.replicate 32 7⟩
     (by decide)).2.2.2.2.2.2.2.2.2.1⟩

/-- Definition of `c8env`: every call succeeds, the reply `ESC [ 5 ; 9 R`
arrives, no timeout fires, but the final `printf`/`fflush` to stdout
fails. -/
def c8env : Env :=
  { okEnv [ReadRes.more [27, 91, 53, 59, 57, 82]] false with stdout_write_ok := false }

/-- C8 counterexample: when writing the result line to stdout fails
(`printf(...) == -1 || fflush(stdout) == EOF`, line 179), the program
returns `EXIT_FAILURE` without writing any diagnostic to stderr, so a
failing run does not always write exactly one diagnostic line. -/
theorem c8_print_failure_counterexample :
    exitCode (run c8env).out ≠ 0
    ∧ (run c8env).st.stderr = []
    ∧ (run c8env).loopMatched = true := by decide

/-- C8 (amended): on success the program writes exactly the line
`"<row> <col>\n"` to stdout, writes nothing to stderr and exits 0; on any
failure other than a failed final stdout write it writes exactly one line
`"ecma48-cpr: <message>\n"` to stderr, writes nothing to stdout and exits
1; when the final stdout write itself fails, the program exits 1 with no
diagnostic. -/
theorem c8_output_discipline (e : Env) :
    (∀ rr cc : Int, (run e).out = Outcome.ok rr cc →
        (run e).st.stdout = [toString rr ++ " " ++ toString cc ++ "\n"]
        ∧ (run e).st.stderr = [] ∧ exitCode (run e).out = 0 ∧ 1 ≤ rr ∧ 1 ≤ cc)
    ∧ (∀ msg, (run e).out = Outcome.died msg →
        (run e).st.stderr = ["ecma48-cpr: " ++ msg ++ "\n"]
        ∧ (run e).st.stdout = [] ∧ exitCode (run e).out = 1)
    ∧ ((run e).out = Outcome.printFailed →
        exitCode (run e).out = 1 ∧ (run e).st.stderr = [] ∧ (run e).st.stdout = []) :=
  run_output e

end Ecma48

namespace Consoletype

/-- C9: consoletype always prints exactly one of "vt", "serial", "pty",
"unknown" (with a newline, via `puts`) to stdout, and exits with the index
of the printed name, except that a first argument equal to "stdout" forces
exit status 0. -/
theorem c9_consoletype (e : CEnv) :
    ∃ t : Nat, t < 4
      ∧ (ctypeMain e).1 = [tty_names.getD t "" ++ "\n"]
      ∧ (ctypeMain e).2 = (if e.argv.get? 1 = some "stdout" then 0 else t) := by
  refine ⟨(if check_ttyname e = 3 then check_devnode e else check_ttyname e), ?_, rfl, rfl⟩
  by_cases h : check_ttyname e = 3 <;>
    simp [h, check_devnode_lt, check_ttyname_lt]

end Consoletype

namespace Shquote

/-- C10: with POSIXLY_CORRECT set to a non-empty string, `esc_mode` is 1
and shquote never emits a dollar-single-quoted argument: the output is the
space-separated arguments followed by a newline, where each argument is
conveyed verbatim or single-quoted with every embedded single quote
rendered as the four bytes of `'\''`. -/
theorem c10_posixly_correct_single_quotes (v : String) (args : List (List Nat))
    (hv : v.length ≠ 0) :
    escModeOf (some v) = 1
    ∧ shquoteMain (some v) args
        = List.intercalate [32] (args.map (print_shquoted 1)) ++ [10]
    ∧ ∀ a ∈ args,
        escOf 1 a ≠ 2
        ∧ (print_shquoted 1 a = cstr a
           ∨ print_shquoted 1 a
               = 39 :: (((cstr a).map
                   (fun b => if b = 39 then [39, 92, 39, 39] else [b])).flatten ++ [39])) := by
  have hm : escModeOf (some v) = 1 := by simp [escModeOf, hv]
  refine ⟨hm, by rw [shquoteMain, hm], fun a ha => ?_⟩
  have he : escLoop 1 a.length a 0 ≤ 1 := escLoop_le_one a.length a 0 (by omega)
  have he2 : escOf 1 a ≤ 1 := he
  constructor
  · omega
  · have : escOf 1 a = 0 ∨ escOf 1 a = 1 := by omega
    rcases this with h | h <;> unfold print_shquoted <;> rw [h]
    · left; rfl
    · right
      simp [sqBody_eq]

/-- Witness for C10: with POSIXLY_CORRECT set to "1", the argument
consisting of the single control byte 7 (which default mode would
dollar-quote) is not dollar-quoted. -/
theorem c10_posixly_correct_single_quotes_witness :
    escModeOf (some "1") = 1 ∧ escOf 1 [7] ≠ 2 :=
  ⟨(c10_posixly_correct_single_quotes "1" [[7]] (by decide)).1,
   ((c10_posixly_correct_single_quotes "1" [[7]] (by decide)).2.2 [7] (by simp)).1⟩

end Shquote
